import Mathlib

/-!
Shallow embedding of the `docker:nix` builder (`DockerNixBuilder.Build`) of
the testground repository, in its two variants:

* the baseline retry variant (the unnamed source file): a two-attempt loop
  around open + ImageLoad + response parsing, with a one-second sleep between
  attempts;
* the hardened single-attempt variant (`pkg/build/docker_nix.go`): a fixed
  100 ms pre-read sleep, one open (closed via `defer`), one ImageLoad, and no
  retry loop.

External collaborators (the docker client, `docker.PipeOutput`,
`docker.GetImageID`, `cli.ImageTag`, `os.Open`, the `nix` subprocess and the
host architecture) are modelled as an oracle environment `Env`; the control
flow, string parsing, defaulting and error selection of `Build` itself are
translated line by line from the source.  Each run also produces a trace of
observable events (subprocess launch, file opens/closes, ingestion calls,
identifier lookups, tag applications, sleeps) so that claims about "exactly
once", "no ingestion call" or "handle released" can be stated.
-/

set_option autoImplicit false

namespace DockerNix

/-- Go `strings.TrimRight(s, "\r\n")`: drop trailing characters belonging to
the cut set `{CR, LF}`. -/
def goTrimRightCRLF (s : String) : String :=
  ⟨(s.data.reverse.dropWhile (fun c => c == '\r' || c == '\n')).reverse⟩

/-- Go `strings.TrimPrefix(s, pre)`: remove `pre` from the front of `s` when
it is a prefix of `s`, and return `s` unchanged otherwise (implemented over
the character list so it evaluates by kernel reduction). -/
def goTrimPre (s pre : String) : String :=
  if pre.data.isPrefixOf s.data then ⟨s.data.drop pre.data.length⟩ else s

/-- The parse of a load-response final line, exactly as in the source:
`strings.TrimRight(strings.TrimPrefix(rsp, "Loaded image: "), "\r\n")`. -/
def parseDefaultTag (rsp : String) : String :=
  goTrimRightCRLF (goTrimPre rsp "Loaded image: ")

/-- `api.BuildOutput`, restricted to the one field this builder sets. -/
structure BuildOutput where
  ArtifactPath : String
deriving DecidableEq, Repr

/-- `DockerNixBuilderConfig`. -/
structure DockerNixBuilderConfig where
  Enabled : Bool
  Name : String
  System : String
deriving DecidableEq, Repr

/-- The dynamic `in.BuildConfig` value: either a `*DockerNixBuilderConfig`
(the type assertion succeeds) or a value of some other type, remembered only
by its type name (the `%T` in the error message). -/
inductive ConfigValue where
  | nixCfg (cfg : DockerNixBuilderConfig)
  | other (typeName : String)
deriving DecidableEq, Repr

/-- `api.BuildInput`, restricted to the fields the builder reads. -/
structure BuildInput where
  TestPlan : String
  PlanDir : String
  BuildConfig : ConfigValue
deriving DecidableEq, Repr

/-- Outcome of `cmd.Output()` for the `nix build` subprocess: success with
the captured stdout, an `*exec.ExitError` carrying the captured stderr, or
some other error (e.g. the binary was not found). -/
inductive NixResult where
  | ok (stdout : String)
  | exitError (code : Nat) (stderr : String)
  | otherError
deriving DecidableEq, Repr

/-- The distinct error values `Build` can return, one constructor per
`return nil, ...` / `return out, err` site, carrying the data the Go error
wraps. -/
inductive BuildError where
  | configTypeMismatch (typeName : String)
  | clientInit
  | unsupportedArch (goarch : String)
  | nixBuildFailed (cause : NixResult)
  | openTarball (path : String)
  | imageLoadFailed
  | pipeFailed
  | loadExhausted
  | getImageIDFailed (s : String)
  | tagFailed
deriving DecidableEq, Repr

/-- Observable events of one run, in order. `openFile`/`closeFile` record a
successfully created file handle and its release; `imageLoad` records an
ingestion call (successful or not); `getImageID` and `imageTag` record the
runtime queries with their arguments. -/
inductive Event where
  | nixBuild (target : String)
  | sleepMs (n : Nat)
  | openFile (attempt : Nat)
  | closeFile (attempt : Nat)
  | imageLoad (attempt : Nat)
  | getImageID (tag : String)
  | imageTag (id tag : String)
deriving DecidableEq, Repr

/-- Modelled from the spec: the oracle environment standing for everything
outside `Build` itself — the host architecture (`runtime.GOARCH`), docker
client construction, the `nix build` subprocess, `os.Open` per attempt,
`cli.ImageLoad` per attempt, `docker.PipeOutput` (whose result is the final
line of the load response; the helper itself lives outside `src/`),
`docker.GetImageID` and `cli.ImageTag`. -/
structure Env where
  goarch : String
  clientInitOk : Bool
  nixResult : NixResult
  openOk : Nat → Bool
  loadOk : Nat → Bool
  pipe : Nat → Option String
  getImageID : String → Option String
  tagOk : String → String → Bool

/-- The platform-defaulting switch: keep a non-empty configured system,
otherwise map `runtime.GOARCH` through the fixed two-entry table; `none` is
the `unsupported architecture` fatal error. -/
def resolveSystem (goarch sys : String) : Option String :=
  if sys.length = 0 then
    if goarch = "arm64" then some "aarch64-linux"
    else if goarch = "amd64" then some "x86_64-linux"
    else none
  else some sys

/-- The artifact-name defaulting: `cfg.Name = in.TestPlan + "-image"` when
unset. -/
def effectiveName (testPlan name : String) : String :=
  if name.length = 0 then testPlan ++ "-image" else name

/-- Result of one whole `Build` call: the (possibly mutated, since the
config is reached through a pointer) build input, the returned
`*api.BuildOutput`, the returned error, and the event trace. -/
structure BuildResult where
  inpFinal : BuildInput
  output : Option BuildOutput
  error : Option BuildError
  events : List Event
deriving Repr

/-- Outcome of the baseline retry loop: `fatal` is the in-loop
`return nil, fmt.Errorf("couldnt open tarball: ...")`; `done tag` is falling
out of (or breaking from) the loop with the current `defaultTag`. -/
inductive LoadOutcome where
  | fatal (e : BuildError)
  | done (tag : String)
deriving DecidableEq, Repr

/-- The baseline retry loop `for i := 0; i < 2; i++ { ... }`, line by line:
open the tarball (open failure returns immediately from `Build`); call
`ImageLoad` (error: sleep 1 s and continue); read the response via
`PipeOutput` (error: sleep 1 s and continue); parse the default tag; break
when it is non-empty; otherwise sleep 1 s and continue.  `fuel` is the number
of remaining iterations, `i` the Go loop index, `tag` the current value of
the `defaultTag` variable. -/
def loadLoop (env : Env) (path : String) : Nat → Nat → String → LoadOutcome × List Event
  | _, 0, tag => (.done tag, [])
  | i, fuel + 1, tag =>
    if env.openOk i then
      if env.loadOk i then
        match env.pipe i with
        | some rsp =>
          let t := parseDefaultTag rsp
          if 0 < t.length then
            (.done t, [Event.openFile i, Event.imageLoad i])
          else
            let r := loadLoop env path (i + 1) fuel t
            (r.1, Event.openFile i :: Event.imageLoad i :: Event.sleepMs 1000 :: r.2)
        | none =>
          let r := loadLoop env path (i + 1) fuel tag
          (r.1, Event.openFile i :: Event.imageLoad i :: Event.sleepMs 1000 :: r.2)
      else
        let r := loadLoop env path (i + 1) fuel tag
        (r.1, Event.openFile i :: Event.imageLoad i :: Event.sleepMs 1000 :: r.2)
    else
      (.fatal (.openTarball path), [])

/-- The baseline (retry) variant of `DockerNixBuilder.Build`, translated
stage by stage: config type assertion, docker client construction, platform
and name defaulting (written back into the caller's config through the
pointer, hence the updated `inpFinal`), `nix build` subprocess, the retry
loop, the empty-tag check, `GetImageID`, and `ImageTag` (whose failure still
returns the already-built output). -/
def buildRetry (env : Env) (inp : BuildInput) : BuildResult :=
  match inp.BuildConfig with
  | .other tyName => ⟨inp, none, some (.configTypeMismatch tyName), []⟩
  | .nixCfg cfg =>
    if env.clientInitOk then
      match resolveSystem env.goarch cfg.System with
      | none => ⟨inp, none, some (.unsupportedArch env.goarch), []⟩
      | some sys =>
        let name := effectiveName inp.TestPlan cfg.Name
        let cfg' : DockerNixBuilderConfig := { cfg with System := sys, Name := name }
        let inp' : BuildInput := { inp with BuildConfig := .nixCfg cfg' }
        let target := inp.PlanDir ++ "#legacyPackages." ++ sys ++ "." ++ name
        match env.nixResult with
        | .exitError code stderr =>
          ⟨inp', none, some (.nixBuildFailed (.exitError code stderr)), [Event.nixBuild target]⟩
        | .otherError =>
          ⟨inp', none, some (.nixBuildFailed .otherError), [Event.nixBuild target]⟩
        | .ok stdout =>
          let path := goTrimRightCRLF stdout
          match loadLoop env path 0 2 "" with
          | (.fatal e, evs) => ⟨inp', none, some e, Event.nixBuild target :: evs⟩
          | (.done tag, evs) =>
            if tag.length = 0 then
              ⟨inp', none, some .loadExhausted, Event.nixBuild target :: evs⟩
            else
              match env.getImageID tag with
              | none =>
                ⟨inp', none, some (.getImageIDFailed tag),
                  Event.nixBuild target :: evs ++ [Event.getImageID tag]⟩
              | some imageID =>
                let out : BuildOutput := ⟨imageID⟩
                let tTag := inp.TestPlan ++ ":" ++ imageID
                if env.tagOk imageID tTag then
                  ⟨inp', some out, none,
                    Event.nixBuild target :: evs ++
                      [Event.getImageID tag, Event.imageTag imageID tTag]⟩
                else
                  ⟨inp', some out, some .tagFailed,
                    Event.nixBuild target :: evs ++
                      [Event.getImageID tag, Event.imageTag imageID tTag]⟩
    else ⟨inp, none, some .clientInit, []⟩

/-- The hardened single-attempt variant (`pkg/build/docker_nix.go`): same
prefix (type assertion, client, defaulting, `nix build`), then a fixed
100 ms sleep, one `os.Open` (immediately fatal on failure), a `defer
tarball.Close()` that fires as the last action of every later return path,
one `ImageLoad` (fatal on failure), one `PipeOutput` read (fatal on
failure), the same tag parse with NO empty-tag check, then `GetImageID`
(whose error message embeds `rsp`, not the tag) and `ImageTag`. -/
def buildHardened (env : Env) (inp : BuildInput) : BuildResult :=
  match inp.BuildConfig with
  | .other tyName => ⟨inp, none, some (.configTypeMismatch tyName), []⟩
  | .nixCfg cfg =>
    if env.clientInitOk then
      match resolveSystem env.goarch cfg.System with
      | none => ⟨inp, none, some (.unsupportedArch env.goarch), []⟩
      | some sys =>
        let name := effectiveName inp.TestPlan cfg.Name
        let cfg' : DockerNixBuilderConfig := { cfg with System := sys, Name := name }
        let inp' : BuildInput := { inp with BuildConfig := .nixCfg cfg' }
        let target := inp.PlanDir ++ "#legacyPackages." ++ sys ++ "." ++ name
        match env.nixResult with
        | .exitError code stderr =>
          ⟨inp', none, some (.nixBuildFailed (.exitError code stderr)), [Event.nixBuild target]⟩
        | .otherError =>
          ⟨inp', none, some (.nixBuildFailed .otherError), [Event.nixBuild target]⟩
        | .ok stdout =>
          let path := goTrimRightCRLF stdout
          let evs0 := [Event.nixBuild target, Event.sleepMs 100]
          if env.openOk 0 then
            if env.loadOk 0 then
              match env.pipe 0 with
              | none =>
                ⟨inp', none, some .pipeFailed,
                  evs0 ++ [Event.openFile 0, Event.imageLoad 0, Event.closeFile 0]⟩
              | some rsp =>
                let defaultTag := parseDefaultTag rsp
                match env.getImageID defaultTag with
                | none =>
                  ⟨inp', none, some (.getImageIDFailed rsp),
                    evs0 ++ [Event.openFile 0, Event.imageLoad 0,
                      Event.getImageID defaultTag, Event.closeFile 0]⟩
                | some imageID =>
                  let out : BuildOutput := ⟨imageID⟩
                  let tTag := inp.TestPlan ++ ":" ++ imageID
                  if env.tagOk imageID tTag then
                    ⟨inp', some out, none,
                      evs0 ++ [Event.openFile 0, Event.imageLoad 0,
                        Event.getImageID defaultTag, Event.imageTag imageID tTag,
                        Event.closeFile 0]⟩
                  else
                    ⟨inp', some out, some .tagFailed,
                      evs0 ++ [Event.openFile 0, Event.imageLoad 0,
                        Event.getImageID defaultTag, Event.imageTag imageID tTag,
                        Event.closeFile 0]⟩
            else
              ⟨inp', none, some .imageLoadFailed,
                evs0 ++ [Event.openFile 0, Event.imageLoad 0, Event.closeFile 0]⟩
          else
            ⟨inp', none, some (.openTarball path), evs0⟩
    else ⟨inp, none, some .clientInit, []⟩

/-- Does an event record a `docker.GetImageID` call? -/
def isGetID : Event → Bool
  | .getImageID _ => true
  | _ => false

/-- Does an event record a `cli.ImageTag` call? -/
def isTagCall : Event → Bool
  | .imageTag _ _ => true
  | _ => false

/-- Does an event record a successfully opened file handle? -/
def isOpen : Event → Bool
  | .openFile _ => true
  | _ => false

/-- Does an event record the release of a file handle? -/
def isClose : Event → Bool
  | .closeFile _ => true
  | _ => false

/-- Does an event touch the artifact: a file open or an ingestion call? -/
def touchesArtifact : Event → Bool
  | .openFile _ => true
  | .imageLoad _ => true
  | _ => false

/-- The config carried by a build input, when the type assertion succeeds. -/
def cfgOf (inp : BuildInput) : Option DockerNixBuilderConfig :=
  match inp.BuildConfig with
  | .nixCfg c => some c
  | .other _ => none

/-- An attempt of the baseline retry loop fails to produce a usable tag:
the ingestion call errors, the response read errors, or the parsed default
tag is empty.  (A failed `os.Open` is deliberately NOT listed here: in the
source it returns from `Build` at once.) -/
def attemptFails (env : Env) (i : Nat) : Prop :=
  env.loadOk i = false ∨ env.pipe i = none ∨
    ∃ r, env.pipe i = some r ∧ parseDefaultTag r = ""

/-! ### Concrete inputs used by counterexamples and witnesses -/

/-- A build input for plan `mytest` with name and platform left unset. -/
def inpStd : BuildInput :=
  ⟨"mytest", "/plan", .nixCfg ⟨true, "", ""⟩⟩

/-- A fully successful environment: x86_64 host, nix prints a path, every
open/load succeeds, the load response's final line carries the marker, the
runtime resolves the tag and accepts the new tag. -/
def envGood : Env :=
  { goarch := "amd64", clientInitOk := true,
    nixResult := .ok "/nix/store/abc.tar\n",
    openOk := fun _ => true, loadOk := fun _ => true,
    pipe := fun _ => some "Loaded image: myimg:latest\r\n",
    getImageID := fun _ => some "sha256:deadbeef",
    tagOk := fun _ _ => true }

/-- As `envGood`, but every load response is the empty string: the parsed
default tag is empty on every attempt, while the runtime's identifier lookup
happily resolves anything. -/
def envEmptyLine : Env :=
  { envGood with
    pipe := fun _ => some "",
    getImageID := fun _ => some "sha256:feedface" }

/-- As `envGood`, but the load response's final line lacks the
`"Loaded image: "` marker. -/
def envNoPre : Env :=
  { envGood with
    pipe := fun _ => some "cannot connect\n",
    getImageID := fun _ => some "sha256:1111" }

/-- As `envGood`, but the ingestion call itself fails on the first attempt
and succeeds on the second. -/
def envLoadFail0 : Env :=
  { envGood with loadOk := fun i => i == 1 }

/-- As `envGood`, but `os.Open` fails on the first attempt and would succeed
on the second. -/
def envOpenFail : Env :=
  { envGood with openOk := fun i => i == 1 }

/-- As `envGood`, but the `nix build` subprocess exits non-zero with
captured stderr. -/
def envNixFail : Env :=
  { envGood with nixResult := .exitError 1 "nix build error text" }

/-- As `envGood`, but the final tag application fails. -/
def envTagFail : Env :=
  { envGood with tagOk := fun _ _ => false }

/-- As `envGood`, on an ARM64 host. -/
def envArm : Env :=
  { envGood with goarch := "arm64" }

/-- As `envGood`, on a host outside the two-entry architecture table. -/
def envRisc : Env :=
  { envGood with goarch := "riscv64" }

/-! ### Structural lemmas about the two Build variants -/

/-- Whenever the type assertion and docker-client construction succeed and
the platform resolves, the input handed back by the baseline variant carries
the defaulted config (the pointer write-back). -/
theorem buildRetry_inpFinal_eq (env : Env) (tp pd : String)
    (cfg : DockerNixBuilderConfig) (sys : String)
    (hcl : env.clientInitOk = true)
    (hsys : resolveSystem env.goarch cfg.System = some sys) :
    (buildRetry env ⟨tp, pd, ConfigValue.nixCfg cfg⟩).inpFinal =
      ⟨tp, pd, ConfigValue.nixCfg
        { cfg with System := sys, Name := effectiveName tp cfg.Name }⟩ := by
  simp only [buildRetry, hcl, if_true, hsys]
  repeat' split <;> try rfl

/-- Unsupported architecture: the baseline variant returns the
`unsupported architecture` error with an empty trace and an unmodified
input. -/
theorem buildRetry_unsupported (env : Env) (tp pd : String)
    (cfg : DockerNixBuilderConfig)
    (hcl : env.clientInitOk = true)
    (hsys : resolveSystem env.goarch cfg.System = none) :
    buildRetry env ⟨tp, pd, ConfigValue.nixCfg cfg⟩ =
      ⟨⟨tp, pd, ConfigValue.nixCfg cfg⟩, none,
        some (BuildError.unsupportedArch env.goarch), []⟩ := by
  simp only [buildRetry, hcl, if_true, hsys]

/-- Unsupported architecture: the hardened variant behaves identically. -/
theorem buildHardened_unsupported (env : Env) (tp pd : String)
    (cfg : DockerNixBuilderConfig)
    (hcl : env.clientInitOk = true)
    (hsys : resolveSystem env.goarch cfg.System = none) :
    buildHardened env ⟨tp, pd, ConfigValue.nixCfg cfg⟩ =
      ⟨⟨tp, pd, ConfigValue.nixCfg cfg⟩, none,
        some (BuildError.unsupportedArch env.goarch), []⟩ := by
  simp only [buildHardened, hcl, if_true, hsys]

/-- Every event emitted by the baseline retry loop is a file open, an
ingestion call or a sleep: never an identifier lookup, a tag application or
a handle release. -/
theorem loadLoop_events_shape (env : Env) (path : String) :
    ∀ (fuel i : Nat) (tag : String), ∀ e ∈ (loadLoop env path i fuel tag).2,
      isGetID e = false ∧ isTagCall e = false ∧ isClose e = false := by
  intro fuel
  induction fuel with
  | zero => intro i tag e he; simp [loadLoop] at he
  | succ n ih =>
    intro i tag e he
    simp only [loadLoop] at he
    split at he
    · split at he
      · split at he
        · split at he
          · simp at he
            rcases he with h | h <;> simp [h, isGetID, isTagCall, isClose]
          · simp at he
            rcases he with h | h | h | h
            · simp [h, isGetID, isTagCall, isClose]
            · simp [h, isGetID, isTagCall, isClose]
            · simp [h, isGetID, isTagCall, isClose]
            · exact ih _ _ e h
        · simp at he
          rcases he with h | h | h | h
          · simp [h, isGetID, isTagCall, isClose]
          · simp [h, isGetID, isTagCall, isClose]
          · simp [h, isGetID, isTagCall, isClose]
          · exact ih _ _ e h
      · simp at he
        rcases he with h | h | h | h
        · simp [h, isGetID, isTagCall, isClose]
        · simp [h, isGetID, isTagCall, isClose]
        · simp [h, isGetID, isTagCall, isClose]
        · exact ih _ _ e h
    · simp at he

/-- The retry loop's trace contains no identifier-lookup event. -/
theorem loadLoop_filter_getID (env : Env) (path : String) (fuel i : Nat)
    (tag : String) : ((loadLoop env path i fuel tag).2.filter isGetID) = [] := by
  rw [List.filter_eq_nil_iff]
  intro e he
  simp [(loadLoop_events_shape env path fuel i tag e he).1]

/-- The retry loop's trace contains no tag-application event. -/
theorem loadLoop_filter_tagCall (env : Env) (path : String) (fuel i : Nat)
    (tag : String) : ((loadLoop env path i fuel tag).2.filter isTagCall) = [] := by
  rw [List.filter_eq_nil_iff]
  intro e he
  simp [(loadLoop_events_shape env path fuel i tag e he).2.1]

/-- The retry loop's trace contains no handle-release event. -/
theorem loadLoop_filter_close (env : Env) (path : String) (fuel i : Nat)
    (tag : String) : ((loadLoop env path i fuel tag).2.filter isClose) = [] := by
  rw [List.filter_eq_nil_iff]
  intro e he
  simp [(loadLoop_events_shape env path fuel i tag e he).2.2]

/-- When every attempt of the retry loop opens its file but fails to produce
a usable tag, the loop falls out with the empty `defaultTag`. -/
theorem loadLoop_exhausts (env : Env) (path : String) :
    ∀ (fuel i : Nat),
      (∀ j, j < fuel → env.openOk (i + j) = true) →
      (∀ j, j < fuel → attemptFails env (i + j)) →
      (loadLoop env path i fuel "").1 = LoadOutcome.done "" := by
  intro fuel
  induction fuel with
  | zero => intro i _ _; rfl
  | succ n ih =>
    intro i hopen hfail
    have ho := hopen 0 (Nat.succ_pos n)
    rw [Nat.add_zero] at ho
    have hf := hfail 0 (Nat.succ_pos n)
    rw [Nat.add_zero] at hf
    have ihnext : (loadLoop env path (i + 1) n "").1 = LoadOutcome.done "" := by
      apply ih
      · intro j hj
        have := hopen (j + 1) (Nat.succ_lt_succ hj)
        rwa [show i + (j + 1) = i + 1 + j by omega] at this
      · intro j hj
        have := hfail (j + 1) (Nat.succ_lt_succ hj)
        rwa [show i + (j + 1) = i + 1 + j by omega] at this
    simp only [loadLoop, ho, if_true]
    cases hl : env.loadOk i with
    | false => simp [hl, ihnext]
    | true =>
      rcases hf with h | h | ⟨r, hr, hpr⟩
      · rw [hl] at h; simp at h
      · simp [hl, h, ihnext]
      · simp [hl, hr, hpr, ihnext]

/-- Once the retry loop ends with a non-empty tag, the rest of the baseline
run is determined by the runtime's identifier lookup and tag application:
the returned output is the looked-up identifier (present even when tagging
fails) and the returned error is the lookup failure, the tagging failure, or
nothing. -/
theorem buildRetry_done_result (env : Env) (tp pd : String)
    (cfg : DockerNixBuilderConfig) (sys stdout tag : String) (evs : List Event)
    (hcl : env.clientInitOk = true)
    (hsys : resolveSystem env.goarch cfg.System = some sys)
    (hnix : env.nixResult = NixResult.ok stdout)
    (hload : loadLoop env (goTrimRightCRLF stdout) 0 2 "" = (LoadOutcome.done tag, evs))
    (htag : tag.length ≠ 0) :
    (buildRetry env ⟨tp, pd, ConfigValue.nixCfg cfg⟩).output =
      (env.getImageID tag).map (fun i => ⟨i⟩) ∧
    (buildRetry env ⟨tp, pd, ConfigValue.nixCfg cfg⟩).error =
      (match env.getImageID tag with
       | none => some (BuildError.getImageIDFailed tag)
       | some imageID =>
         if env.tagOk imageID (tp ++ ":" ++ imageID) then none
         else some BuildError.tagFailed) := by
  simp only [buildRetry, hcl, hsys, hnix, hload, htag, if_false]
  cases hg : env.getImageID tag with
  | none => simp [hg, htag]
  | some imageID =>
    cases ht : env.tagOk imageID (tp ++ ":" ++ imageID) with
    | false => simp [hg, ht, htag]
    | true => simp [hg, ht, htag]

/-- Either the baseline variant leaves the whole input untouched, or the
type assertion and platform resolution succeeded and the input comes back
with exactly the defaulted config written into it. -/
theorem buildRetry_inpFinal_cases (env : Env) (tp pd : String) (bc : ConfigValue) :
    (buildRetry env ⟨tp, pd, bc⟩).inpFinal = ⟨tp, pd, bc⟩ ∨
    ∃ cfg sys, bc = ConfigValue.nixCfg cfg ∧
      resolveSystem env.goarch cfg.System = some sys ∧
      (buildRetry env ⟨tp, pd, bc⟩).inpFinal =
        ⟨tp, pd, ConfigValue.nixCfg
          { cfg with System := sys, Name := effectiveName tp cfg.Name }⟩ := by
  cases bc with
  | other ty => left; rfl
  | nixCfg cfg =>
    cases hcl : env.clientInitOk with
    | false => left; simp [buildRetry, hcl]
    | true =>
      cases hsys : resolveSystem env.goarch cfg.System with
      | none => left; simp [buildRetry_unsupported env tp pd cfg hcl hsys]
      | some sys =>
        right
        exact ⟨cfg, sys, rfl, hsys, buildRetry_inpFinal_eq env tp pd cfg sys hcl hsys⟩

/-- The only way the baseline variant returns an output together with an
error is the tag-application failure: every other error comes with no
output. -/
theorem buildRetry_partial_only_tagFail (env : Env) (inp : BuildInput) :
    (buildRetry env inp).output = none ∨ (buildRetry env inp).error = none ∨
      (buildRetry env inp).error = some BuildError.tagFailed := by
  obtain ⟨tp, pd, bc⟩ := inp
  cases bc with
  | other ty => left; rfl
  | nixCfg cfg =>
    simp only [buildRetry]
    repeat' split
    all_goals simp

/-- The only way the hardened variant returns an output together with an
error is the tag-application failure. -/
theorem buildHardened_partial_only_tagFail (env : Env) (inp : BuildInput) :
    (buildHardened env inp).output = none ∨ (buildHardened env inp).error = none ∨
      (buildHardened env inp).error = some BuildError.tagFailed := by
  obtain ⟨tp, pd, bc⟩ := inp
  cases bc with
  | other ty => left; rfl
  | nixCfg cfg =>
    simp only [buildHardened]
    repeat' split
    all_goals simp

/-- The baseline retry variant never emits a handle-release event on any
run: the source contains no `Close` call for the tarball handle. -/
theorem buildRetry_never_closes (env : Env) (inp : BuildInput) :
    (buildRetry env inp).events.filter isClose = [] := by
  obtain ⟨tp, pd, bc⟩ := inp
  cases bc with
  | other ty => rfl
  | nixCfg cfg =>
    simp only [buildRetry]
    cases hcl : env.clientInitOk with
    | false => simp
    | true =>
      cases hsys : resolveSystem env.goarch cfg.System with
      | none => simp
      | some sys =>
        cases hnix : env.nixResult with
        | exitError code stderr => simp [isClose]
        | otherError => simp [isClose]
        | ok stdout =>
          rcases hlp : loadLoop env (goTrimRightCRLF stdout) 0 2 "" with ⟨o, evs⟩
          have hevs : evs.filter isClose = [] := by
            have h := loadLoop_filter_close env (goTrimRightCRLF stdout) 2 0 ""
            rw [hlp] at h
            exact h
          simp only [hlp]
          cases o with
          | fatal e => simp [isClose, hevs]
          | done tag =>
            by_cases htag : tag.length = 0
            · simp [htag, isClose, hevs]
            · cases hg : env.getImageID tag with
              | none => simp [htag, hg, isClose, hevs, List.filter_append]
              | some imageID =>
                cases ht : env.tagOk imageID (tp ++ ":" ++ imageID) <;>
                  simp [htag, hg, ht, isClose, hevs, List.filter_append]

/-! ### Claims -/

/-- C1, counterexample: the hardened single-attempt variant does NOT return a
load-exhausted error and nil output on an empty default tag.  With an empty
load-response final line (parsed tag `""`), it forwards the empty tag to the
identifier lookup, and when the runtime resolves it, Build returns a
successful BuildOutput with no error at all — while the baseline variant on
the very same environment returns the load-exhausted error. -/
theorem c1_counterexample :
    envEmptyLine.pipe 0 = some "" ∧ parseDefaultTag "" = "" ∧
    (buildHardened envEmptyLine inpStd).output = some ⟨"sha256:feedface"⟩ ∧
    (buildHardened envEmptyLine inpStd).error = none ∧
    (buildRetry envEmptyLine inpStd).output = none ∧
    (buildRetry envEmptyLine inpStd).error = some BuildError.loadExhausted := by
  decide

/-- C1, amended: in the baseline retry variant, when the config, client and
platform stages succeed, the file opens on both attempts and each of the two
attempts fails or yields an empty parsed tag, Build returns a nil BuildOutput
with the definite load-exhausted error.  The hardened variant performs no
empty-tag check: an empty parsed final line is passed to the identifier
lookup, and when that lookup fails Build returns the identifier-lookup error
(embedding the raw response), not the load-exhausted error. -/
theorem c1_load_exhaustion_amended :
    (∀ (env : Env) (tp pd : String) (cfg : DockerNixBuilderConfig) (sys stdout : String),
      env.clientInitOk = true →
      resolveSystem env.goarch cfg.System = some sys →
      env.nixResult = NixResult.ok stdout →
      env.openOk 0 = true → env.openOk 1 = true →
      attemptFails env 0 → attemptFails env 1 →
      (buildRetry env ⟨tp, pd, ConfigValue.nixCfg cfg⟩).output = none ∧
      (buildRetry env ⟨tp, pd, ConfigValue.nixCfg cfg⟩).error =
        some BuildError.loadExhausted) ∧
    (∀ (env : Env) (tp pd : String) (cfg : DockerNixBuilderConfig) (sys stdout rsp : String),
      env.clientInitOk = true →
      resolveSystem env.goarch cfg.System = some sys →
      env.nixResult = NixResult.ok stdout →
      env.openOk 0 = true → env.loadOk 0 = true →
      env.pipe 0 = some rsp → parseDefaultTag rsp = "" →
      env.getImageID "" = none →
      (buildHardened env ⟨tp, pd, ConfigValue.nixCfg cfg⟩).output = none ∧
      (buildHardened env ⟨tp, pd, ConfigValue.nixCfg cfg⟩).error =
        some (BuildError.getImageIDFailed rsp)) := by
  constructor
  · intro env tp pd cfg sys stdout hcl hsys hnix hopen0 hopen1 hf0 hf1
    rcases hlp : loadLoop env (goTrimRightCRLF stdout) 0 2 "" with ⟨o, evs⟩
    have ho : o = LoadOutcome.done "" := by
      have h2 := loadLoop_exhausts env (goTrimRightCRLF stdout) 2 0
        (by intro j hj
            interval_cases j
            · simpa using hopen0
            · simpa using hopen1)
        (by intro j hj
            interval_cases j
            · simpa using hf0
            · simpa using hf1)
      rw [hlp] at h2
      exact h2
    subst ho
    simp [buildRetry, hcl, hsys, hnix, hlp]
  · intro env tp pd cfg sys stdout rsp hcl hsys hnix hopen0 hload0 hpipe0 hparse hgid
    simp [buildHardened, hcl, hsys, hnix, hopen0, hload0, hpipe0, hparse, hgid]

/-- C1, witness: the baseline half of the amended claim at a concrete
environment where every load response is empty. -/
theorem c1_load_exhaustion_witness :
    (buildRetry envEmptyLine inpStd).output = none ∧
    (buildRetry envEmptyLine inpStd).error = some BuildError.loadExhausted :=
  c1_load_exhaustion_amended.1 envEmptyLine "mytest" "/plan" ⟨true, "", ""⟩
    "x86_64-linux" "/nix/store/abc.tar\n" rfl (by decide) rfl rfl rfl
    (Or.inr (Or.inr ⟨"", rfl, rfl⟩)) (Or.inr (Or.inr ⟨"", rfl, rfl⟩))

/-- C2, counterexample: a final line that is non-empty but lacks the
`"Loaded image: "` prefix IS counted as a success with the trimmed raw line
as the tag (Go's `strings.TrimPrefix` returns its input unchanged when the
prefix does not match): the attempt breaks the loop, the raw line is used as
the default tag in the identifier lookup, and Build returns success. -/
theorem c2_counterexample :
    "Loaded image: ".data.isPrefixOf "cannot connect\n".data = false ∧
    parseDefaultTag "cannot connect\n" = "cannot connect" ∧
    (buildRetry envNoPre inpStd).error = none ∧
    (buildRetry envNoPre inpStd).output = some ⟨"sha256:1111"⟩ ∧
    (buildRetry envNoPre inpStd).events.filter isGetID =
      [Event.getImageID "cannot connect"] := by
  decide

/-- C2, amended: an ingestion attempt is counted as a success — breaking the
retry loop with the parsed value as the default tag — iff the final line,
after stripping the literal prefix `"Loaded image: "` when present and
trimming trailing CR/LF, is non-empty; when that parse is empty the attempt's
outcome is decided by the remaining attempts; and when the prefix is absent
the parsed tag is simply the CR/LF-trimmed raw line. -/
theorem c2_success_condition_amended (env : Env) (path : String)
    (i fuel : Nat) (tag rsp : String)
    (ho : env.openOk i = true) (hl : env.loadOk i = true)
    (hp : env.pipe i = some rsp) :
    (0 < (parseDefaultTag rsp).length →
      loadLoop env path i (fuel + 1) tag =
        (LoadOutcome.done (parseDefaultTag rsp),
          [Event.openFile i, Event.imageLoad i])) ∧
    ((parseDefaultTag rsp).length = 0 →
      (loadLoop env path i (fuel + 1) tag).1 =
        (loadLoop env path (i + 1) fuel (parseDefaultTag rsp)).1) ∧
    ("Loaded image: ".data.isPrefixOf rsp.data = false →
      parseDefaultTag rsp = goTrimRightCRLF rsp) := by
  refine ⟨?_, ?_, ?_⟩
  · intro hpos
    simp [loadLoop, ho, hl, hp, hpos]
  · intro hzero
    simp [loadLoop, ho, hl, hp, hzero]
  · intro hnopre
    simp [parseDefaultTag, goTrimPre, hnopre]

/-- C2, witness: the amended claim applied at the environment whose load
response lacks the marker — the attempt succeeds at once with the trimmed
raw line as the tag. -/
theorem c2_success_condition_witness :
    loadLoop envNoPre "/nix/store/abc.tar" 0 2 "" =
      (LoadOutcome.done "cannot connect", [Event.openFile 0, Event.imageLoad 0]) ∧
    parseDefaultTag "cannot connect\n" = goTrimRightCRLF "cannot connect\n" := by
  have h := c2_success_condition_amended envNoPre "/nix/store/abc.tar" 0 1 ""
    "cannot connect\n" rfl rfl rfl
  exact ⟨by simpa using h.1 (by decide), h.2.2 (by decide)⟩

/-- C3: in the baseline retry variant, when attempt 1 fails transiently
(ingestion error, response-read error, or empty parsed tag), the file opens
on both attempts and attempt 2 parses a non-empty tag, the returned output
and error are exactly those of a run that succeeds with the same response on
the first try, and the returned output is the identifier looked up for the
tag parsed on attempt 2. -/
theorem c3_retry_transparency (env : Env) (tp pd : String)
    (cfg : DockerNixBuilderConfig) (sys stdout rsp : String)
    (hcl : env.clientInitOk = true)
    (hsys : resolveSystem env.goarch cfg.System = some sys)
    (hnix : env.nixResult = NixResult.ok stdout)
    (hopen0 : env.openOk 0 = true) (hopen1 : env.openOk 1 = true)
    (hfail0 : attemptFails env 0)
    (hload1 : env.loadOk 1 = true) (hpipe1 : env.pipe 1 = some rsp)
    (htag : 0 < (parseDefaultTag rsp).length) :
    ((buildRetry env ⟨tp, pd, ConfigValue.nixCfg cfg⟩).output =
       (buildRetry
         { env with
           loadOk := fun _ => true,
           pipe := fun _ => some rsp } ⟨tp, pd, ConfigValue.nixCfg cfg⟩).output ∧
     (buildRetry env ⟨tp, pd, ConfigValue.nixCfg cfg⟩).error =
       (buildRetry
         { env with
           loadOk := fun _ => true,
           pipe := fun _ => some rsp } ⟨tp, pd, ConfigValue.nixCfg cfg⟩).error) ∧
    (buildRetry env ⟨tp, pd, ConfigValue.nixCfg cfg⟩).output =
      (env.getImageID (parseDefaultTag rsp)).map (fun i => ⟨i⟩) := by
  have hne : ¬((parseDefaultTag rsp).length = 0) := by omega
  have hA : loadLoop env (goTrimRightCRLF stdout) 0 2 "" =
      (LoadOutcome.done (parseDefaultTag rsp),
        [Event.openFile 0, Event.imageLoad 0, Event.sleepMs 1000,
         Event.openFile 1, Event.imageLoad 1]) := by
    rcases hfail0 with h | h | ⟨r, hr, hpr⟩
    · simp [loadLoop, hopen0, hopen1, h, hload1, hpipe1, htag]
    · cases hl0 : env.loadOk 0 with
      | false => simp [loadLoop, hopen0, hopen1, hl0, hload1, hpipe1, htag]
      | true => simp [loadLoop, hopen0, hopen1, hl0, h, hload1, hpipe1, htag]
    · cases hl0 : env.loadOk 0 with
      | false => simp [loadLoop, hopen0, hopen1, hl0, hload1, hpipe1, htag]
      | true => simp [loadLoop, hopen0, hopen1, hl0, hr, hpr, hload1, hpipe1, htag]
  have hB : loadLoop
      { env with
        loadOk := fun _ => true,
        pipe := fun _ => some rsp } (goTrimRightCRLF stdout) 0 2 "" =
      (LoadOutcome.done (parseDefaultTag rsp),
        [Event.openFile 0, Event.imageLoad 0]) := by
    simp [loadLoop, hopen0, htag]
  obtain ⟨hoA, heA⟩ := buildRetry_done_result env tp pd cfg sys stdout
    (parseDefaultTag rsp) _ hcl hsys hnix hA hne
  obtain ⟨hoB, heB⟩ := buildRetry_done_result
    { env with
      loadOk := fun _ => true,
      pipe := fun _ => some rsp } tp pd cfg sys stdout
    (parseDefaultTag rsp) _ hcl hsys hnix hB hne
  refine ⟨⟨?_, ?_⟩, ?_⟩
  · rw [hoA, hoB]
  · rw [heA, heB]
  · exact hoA

/-- C3, witness: ingestion fails on attempt 1 and succeeds on attempt 2; the
run returns the identifier of the tag parsed on attempt 2. -/
theorem c3_retry_transparency_witness :
    (buildRetry envLoadFail0 inpStd).output = some ⟨"sha256:deadbeef"⟩ :=
  (c3_retry_transparency envLoadFail0 "mytest" "/plan" ⟨true, "", ""⟩
    "x86_64-linux" "/nix/store/abc.tar\n" "Loaded image: myimg:latest\r\n"
    rfl (by decide) rfl rfl rfl (Or.inl rfl) rfl rfl (by decide)).2.trans
    (by decide)

/-- C4, counterexample: in the baseline retry variant an open failure on the
FIRST attempt is immediately fatal, although the second attempt would have
succeeded: Build returns the open error and nil output, and the trace shows
no sleep, no ingestion call and no second attempt. -/
theorem c4_counterexample :
    envOpenFail.openOk 0 = false ∧ envOpenFail.openOk 1 = true ∧
    envOpenFail.loadOk 1 = true ∧
    (buildRetry envOpenFail inpStd).error =
      some (BuildError.openTarball "/nix/store/abc.tar") ∧
    (buildRetry envOpenFail inpStd).output = none ∧
    (buildRetry envOpenFail inpStd).events =
      [Event.nixBuild "/plan#legacyPackages.x86_64-linux.mytest-image"] := by
  decide

/-- C4, amended: a failure to open the artifact file on the first attempt of
the baseline retry loop is immediately fatal — Build returns nil and the
couldnt-open-tarball error, with no delay and no further attempt (the whole
trace is the single subprocess event); only ingestion-call errors,
response-read errors and empty parsed tags are retried. -/
theorem c4_open_failure_amended (env : Env) (tp pd : String)
    (cfg : DockerNixBuilderConfig) (sys stdout : String)
    (hcl : env.clientInitOk = true)
    (hsys : resolveSystem env.goarch cfg.System = some sys)
    (hnix : env.nixResult = NixResult.ok stdout)
    (hopen0 : env.openOk 0 = false) :
    buildRetry env ⟨tp, pd, ConfigValue.nixCfg cfg⟩ =
      ⟨⟨tp, pd, ConfigValue.nixCfg
          { cfg with System := sys, Name := effectiveName tp cfg.Name }⟩,
        none, some (BuildError.openTarball (goTrimRightCRLF stdout)),
        [Event.nixBuild (pd ++ "#legacyPackages." ++ sys ++ "." ++
          effectiveName tp cfg.Name)]⟩ := by
  simp [buildRetry, hcl, hsys, hnix, loadLoop, hopen0]

/-- C4, witness: the amended claim evaluated at the concrete
open-fails-first environment. -/
theorem c4_open_failure_witness :
    buildRetry envOpenFail inpStd =
      ⟨⟨"mytest", "/plan", ConfigValue.nixCfg ⟨true, "mytest-image", "x86_64-linux"⟩⟩,
        none, some (BuildError.openTarball "/nix/store/abc.tar"),
        [Event.nixBuild "/plan#legacyPackages.x86_64-linux.mytest-image"]⟩ :=
  c4_open_failure_amended envOpenFail "mytest" "/plan" ⟨true, "", ""⟩
    "x86_64-linux" "/nix/store/abc.tar\n" rfl (by decide) rfl rfl

/-- C5: in both variants, when the build-tool subprocess exits non-zero,
Build returns nil output and an error embedding the captured stderr together
with the underlying exit error, and the trace contains no file open and no
ingestion call. -/
theorem c5_build_tool_failure (env : Env) (tp pd : String)
    (cfg : DockerNixBuilderConfig) (sys : String) (code : Nat) (stderr : String)
    (hcl : env.clientInitOk = true)
    (hsys : resolveSystem env.goarch cfg.System = some sys)
    (hnix : env.nixResult = NixResult.exitError code stderr) :
    ((buildRetry env ⟨tp, pd, ConfigValue.nixCfg cfg⟩).output = none ∧
     (buildRetry env ⟨tp, pd, ConfigValue.nixCfg cfg⟩).error =
       some (BuildError.nixBuildFailed (NixResult.exitError code stderr)) ∧
     (buildRetry env ⟨tp, pd, ConfigValue.nixCfg cfg⟩).events.filter
       touchesArtifact = []) ∧
    ((buildHardened env ⟨tp, pd, ConfigValue.nixCfg cfg⟩).output = none ∧
     (buildHardened env ⟨tp, pd, ConfigValue.nixCfg cfg⟩).error =
       some (BuildError.nixBuildFailed (NixResult.exitError code stderr)) ∧
     (buildHardened env ⟨tp, pd, ConfigValue.nixCfg cfg⟩).events.filter
       touchesArtifact = []) := by
  simp [buildRetry, buildHardened, hcl, hsys, hnix, touchesArtifact]

/-- C5, witness: the claim at a concrete environment whose nix subprocess
exits 1 with captured stderr. -/
theorem c5_build_tool_failure_witness :
    (buildRetry envNixFail inpStd).error =
      some (BuildError.nixBuildFailed (NixResult.exitError 1 "nix build error text")) ∧
    (buildRetry envNixFail inpStd).events.filter touchesArtifact = [] := by
  have h := c5_build_tool_failure envNixFail "mytest" "/plan" ⟨true, "", ""⟩
    "x86_64-linux" 1 "nix build error text" rfl (by decide) rfl
  exact ⟨h.1.2.1, h.1.2.2⟩

/-- C6: in both variants, a run whose load stage ends with a (non-empty)
default tag queries the runtime for that tag's identifier exactly once
(exactly one identifier-lookup event, carrying that tag), and when the
lookup returns an identifier, the tag `"<plan>:<identifier>"` is applied to
that identifier (exactly one tag-application event) and the BuildOutput's
artifact identifier is that identifier. -/
theorem c6_identifier_and_tagging :
    (∀ (env : Env) (tp pd : String) (cfg : DockerNixBuilderConfig)
        (sys stdout tag : String) (evs : List Event),
      env.clientInitOk = true →
      resolveSystem env.goarch cfg.System = some sys →
      env.nixResult = NixResult.ok stdout →
      loadLoop env (goTrimRightCRLF stdout) 0 2 "" = (LoadOutcome.done tag, evs) →
      tag.length ≠ 0 →
      (buildRetry env ⟨tp, pd, ConfigValue.nixCfg cfg⟩).events.filter isGetID =
        [Event.getImageID tag] ∧
      (∀ imageID, env.getImageID tag = some imageID →
        (buildRetry env ⟨tp, pd, ConfigValue.nixCfg cfg⟩).output = some ⟨imageID⟩ ∧
        (buildRetry env ⟨tp, pd, ConfigValue.nixCfg cfg⟩).events.filter isTagCall =
          [Event.imageTag imageID (tp ++ ":" ++ imageID)])) ∧
    (∀ (env : Env) (tp pd : String) (cfg : DockerNixBuilderConfig)
        (sys stdout rsp : String),
      env.clientInitOk = true →
      resolveSystem env.goarch cfg.System = some sys →
      env.nixResult = NixResult.ok stdout →
      env.openOk 0 = true → env.loadOk 0 = true → env.pipe 0 = some rsp →
      0 < (parseDefaultTag rsp).length →
      (buildHardened env ⟨tp, pd, ConfigValue.nixCfg cfg⟩).events.filter isGetID =
        [Event.getImageID (parseDefaultTag rsp)] ∧
      (∀ imageID, env.getImageID (parseDefaultTag rsp) = some imageID →
        (buildHardened env ⟨tp, pd, ConfigValue.nixCfg cfg⟩).output = some ⟨imageID⟩ ∧
        (buildHardened env ⟨tp, pd, ConfigValue.nixCfg cfg⟩).events.filter isTagCall =
          [Event.imageTag imageID (tp ++ ":" ++ imageID)])) := by
  constructor
  · intro env tp pd cfg sys stdout tag evs hcl hsys hnix hload htag
    have hevsG : evs.filter isGetID = [] := by
      have h := loadLoop_filter_getID env (goTrimRightCRLF stdout) 2 0 ""
      rw [hload] at h
      exact h
    have hevsT : evs.filter isTagCall = [] := by
      have h := loadLoop_filter_tagCall env (goTrimRightCRLF stdout) 2 0 ""
      rw [hload] at h
      exact h
    simp only [buildRetry, hcl, hsys, hnix, hload, htag, if_false]
    cases hg : env.getImageID tag with
    | none =>
      constructor
      · simp [List.filter_append, hevsG, isGetID]
      · intro imageID hid
        simp at hid
    | some imageID =>
      constructor
      · cases ht : env.tagOk imageID (tp ++ ":" ++ imageID) <;>
          simp [ht, List.filter_append, hevsG, isGetID]
      · intro id2 hid
        have hid2 : imageID = id2 := by injection hid
        subst hid2
        cases ht : env.tagOk imageID (tp ++ ":" ++ imageID) <;>
          exact ⟨by simp [ht],
            by simp [ht, List.filter_append, hevsT, isTagCall, isGetID]⟩
  · intro env tp pd cfg sys stdout rsp hcl hsys hnix hopen0 hload0 hpipe0 htag
    simp only [buildHardened, hcl, hsys, hnix, hopen0, hload0, hpipe0]
    cases hg : env.getImageID (parseDefaultTag rsp) with
    | none =>
      constructor
      · simp [isGetID]
      · intro imageID hid
        simp at hid
    | some imageID =>
      constructor
      · cases ht : env.tagOk imageID (tp ++ ":" ++ imageID) <;>
          simp [ht, isGetID]
      · intro id2 hid
        have hid2 : imageID = id2 := by injection hid
        subst hid2
        cases ht : env.tagOk imageID (tp ++ ":" ++ imageID) <;>
          exact ⟨by simp [ht], by simp [ht, isTagCall, isGetID]⟩

/-- C6, witness: the baseline half of the claim at the fully successful
environment — one identifier lookup for `myimg:latest`, and the output
carries the resolved identifier. -/
theorem c6_identifier_and_tagging_witness :
    (buildRetry envGood inpStd).events.filter isGetID =
      [Event.getImageID "myimg:latest"] ∧
    (buildRetry envGood inpStd).output = some ⟨"sha256:deadbeef"⟩ := by
  have h := c6_identifier_and_tagging.1 envGood "mytest" "/plan" ⟨true, "", ""⟩
    "x86_64-linux" "/nix/store/abc.tar\n" "myimg:latest"
    [Event.openFile 0, Event.imageLoad 0] rfl (by decide) rfl (by decide) (by decide)
  exact ⟨h.1, (h.2 "sha256:deadbeef" rfl).1⟩

/-- C7: when the final tag application fails after the identifier was
resolved, both variants return the already-produced BuildOutput (carrying
the resolved identifier) together with the tag-failure error; and in both
variants the ONLY way an output is returned together with an error is that
tag failure — every other failure returns no output. -/
theorem c7_partial_success_on_tag_failure :
    (∀ (env : Env) (tp pd : String) (cfg : DockerNixBuilderConfig)
        (sys stdout tag : String) (evs : List Event) (imageID : String),
      env.clientInitOk = true →
      resolveSystem env.goarch cfg.System = some sys →
      env.nixResult = NixResult.ok stdout →
      loadLoop env (goTrimRightCRLF stdout) 0 2 "" = (LoadOutcome.done tag, evs) →
      tag.length ≠ 0 →
      env.getImageID tag = some imageID →
      env.tagOk imageID (tp ++ ":" ++ imageID) = false →
      (buildRetry env ⟨tp, pd, ConfigValue.nixCfg cfg⟩).output = some ⟨imageID⟩ ∧
      (buildRetry env ⟨tp, pd, ConfigValue.nixCfg cfg⟩).error =
        some BuildError.tagFailed) ∧
    (∀ (env : Env) (inp : BuildInput),
      (buildRetry env inp).output.isSome →
      (buildRetry env inp).error = none ∨
        (buildRetry env inp).error = some BuildError.tagFailed) ∧
    (∀ (env : Env) (tp pd : String) (cfg : DockerNixBuilderConfig)
        (sys stdout rsp imageID : String),
      env.clientInitOk = true →
      resolveSystem env.goarch cfg.System = some sys →
      env.nixResult = NixResult.ok stdout →
      env.openOk 0 = true → env.loadOk 0 = true → env.pipe 0 = some rsp →
      env.getImageID (parseDefaultTag rsp) = some imageID →
      env.tagOk imageID (tp ++ ":" ++ imageID) = false →
      (buildHardened env ⟨tp, pd, ConfigValue.nixCfg cfg⟩).output = some ⟨imageID⟩ ∧
      (buildHardened env ⟨tp, pd, ConfigValue.nixCfg cfg⟩).error =
        some BuildError.tagFailed) ∧
    (∀ (env : Env) (inp : BuildInput),
      (buildHardened env inp).output.isSome →
      (buildHardened env inp).error = none ∨
        (buildHardened env inp).error = some BuildError.tagFailed) := by
  refine ⟨?_, ?_, ?_, ?_⟩
  · intro env tp pd cfg sys stdout tag evs imageID hcl hsys hnix hload htag hg ht
    obtain ⟨ho, he⟩ := buildRetry_done_result env tp pd cfg sys stdout tag evs
      hcl hsys hnix hload htag
    rw [ho, he, hg]
    simp [ht]
  · intro env inp hsome
    rcases buildRetry_partial_only_tagFail env inp with h | h | h
    · rw [h] at hsome; simp at hsome
    · exact Or.inl h
    · exact Or.inr h
  · intro env tp pd cfg sys stdout rsp imageID hcl hsys hnix hopen0 hload0 hpipe0 hg ht
    simp [buildHardened, hcl, hsys, hnix, hopen0, hload0, hpipe0, hg, ht]
  · intro env inp hsome
    rcases buildHardened_partial_only_tagFail env inp with h | h | h
    · rw [h] at hsome; simp at hsome
    · exact Or.inl h
    · exact Or.inr h

/-- C7, witness: the baseline half of the claim at a concrete environment
whose tag application fails: the output still carries the identifier and the
error is the tag failure. -/
theorem c7_partial_success_witness :
    (buildRetry envTagFail inpStd).output = some ⟨"sha256:deadbeef"⟩ ∧
    (buildRetry envTagFail inpStd).error = some BuildError.tagFailed :=
  c7_partial_success_on_tag_failure.1 envTagFail "mytest" "/plan" ⟨true, "", ""⟩
    "x86_64-linux" "/nix/store/abc.tar\n" "myimg:latest"
    [Event.openFile 0, Event.imageLoad 0] "sha256:deadbeef"
    rfl (by decide) rfl (by decide) (by decide) rfl rfl

/-- C8: with no explicit platform configured, an `arm64` host resolves to
`aarch64-linux` and an `amd64` host to `x86_64-linux` (observable in the
defaulted configuration the run writes back); any other host architecture
makes Build fail with the unsupported-architecture error, nil output and an
EMPTY trace — before the build subprocess is invoked — in both variants; and
a non-empty configured platform is used unchanged. -/
theorem c8_platform_resolution (env : Env) (tp pd : String)
    (cfg : DockerNixBuilderConfig) (hcl : env.clientInitOk = true) :
    (cfg.System.length = 0 → env.goarch = "arm64" →
      (cfgOf (buildRetry env ⟨tp, pd, ConfigValue.nixCfg cfg⟩).inpFinal).map
        (fun c => c.System) = some "aarch64-linux") ∧
    (cfg.System.length = 0 → env.goarch = "amd64" →
      (cfgOf (buildRetry env ⟨tp, pd, ConfigValue.nixCfg cfg⟩).inpFinal).map
        (fun c => c.System) = some "x86_64-linux") ∧
    (cfg.System.length = 0 → env.goarch ≠ "arm64" → env.goarch ≠ "amd64" →
      buildRetry env ⟨tp, pd, ConfigValue.nixCfg cfg⟩ =
        ⟨⟨tp, pd, ConfigValue.nixCfg cfg⟩, none,
          some (BuildError.unsupportedArch env.goarch), []⟩ ∧
      buildHardened env ⟨tp, pd, ConfigValue.nixCfg cfg⟩ =
        ⟨⟨tp, pd, ConfigValue.nixCfg cfg⟩, none,
          some (BuildError.unsupportedArch env.goarch), []⟩) ∧
    (0 < cfg.System.length →
      (cfgOf (buildRetry env ⟨tp, pd, ConfigValue.nixCfg cfg⟩).inpFinal).map
        (fun c => c.System) = some cfg.System) := by
  refine ⟨?_, ?_, ?_, ?_⟩
  · intro h0 ha
    rw [buildRetry_inpFinal_eq env tp pd cfg "aarch64-linux" hcl
      (by simp [resolveSystem, h0, ha])]
    simp [cfgOf]
  · intro h0 ha
    rw [buildRetry_inpFinal_eq env tp pd cfg "x86_64-linux" hcl
      (by simp [resolveSystem, h0, ha])]
    simp [cfgOf]
  · intro h0 ha hb
    have hsys : resolveSystem env.goarch cfg.System = none := by
      simp [resolveSystem, h0, ha, hb]
    exact ⟨buildRetry_unsupported env tp pd cfg hcl hsys,
      buildHardened_unsupported env tp pd cfg hcl hsys⟩
  · intro h0
    rw [buildRetry_inpFinal_eq env tp pd cfg cfg.System hcl
      (by simp [resolveSystem]; omega)]
    simp [cfgOf]

/-- C8, witness: an ARM64 host resolves to `aarch64-linux`, and a RISC-V
host fails with the unsupported-architecture error. -/
theorem c8_platform_resolution_witness :
    (cfgOf (buildRetry envArm inpStd).inpFinal).map (fun c => c.System) =
      some "aarch64-linux" ∧
    (buildRetry envRisc inpStd).error =
      some (BuildError.unsupportedArch "riscv64") := by
  have h1 := (c8_platform_resolution envArm "mytest" "/plan" ⟨true, "", ""⟩ rfl).1
    rfl rfl
  have h2 := (c8_platform_resolution envRisc "mytest" "/plan" ⟨true, "", ""⟩ rfl).2.2.1
    rfl (by decide) (by decide)
  exact ⟨h1, congrArg BuildResult.error h2.1⟩

/-- C9, counterexample: the run DOES mutate the caller's configuration
object — the defaulted name and platform are written back through the
configuration pointer, so after a run that started with empty Name and
System, the caller's configuration carries the defaults. -/
theorem c9_counterexample :
    (buildRetry envGood inpStd).inpFinal.BuildConfig ≠ inpStd.BuildConfig ∧
    cfgOf (buildRetry envGood inpStd).inpFinal =
      some ⟨true, "mytest-image", "x86_64-linux"⟩ ∧
    cfgOf inpStd = some ⟨true, "", ""⟩ := by
  decide

/-- C9, amended: name and platform are defaulted once at the start of the
run, but the defaults are written through the caller-supplied configuration
pointer: the configuration object's Name and System fields are overwritten
when they were empty (and only then), while the plan name, the source
directory, the Enabled flag, non-empty Name/System values, and a
wrong-typed configuration are left unmodified. -/
theorem c9_request_mutation_amended (env : Env) (inp : BuildInput) :
    (buildRetry env inp).inpFinal.TestPlan = inp.TestPlan ∧
    (buildRetry env inp).inpFinal.PlanDir = inp.PlanDir ∧
    (∀ ty, inp.BuildConfig = ConfigValue.other ty →
      (buildRetry env inp).inpFinal = inp) ∧
    (∀ cfg, inp.BuildConfig = ConfigValue.nixCfg cfg →
      ∃ cfg', (buildRetry env inp).inpFinal.BuildConfig = ConfigValue.nixCfg cfg' ∧
        cfg'.Enabled = cfg.Enabled ∧
        (0 < cfg.System.length → cfg'.System = cfg.System) ∧
        (0 < cfg.Name.length → cfg'.Name = cfg.Name)) := by
  obtain ⟨tp, pd, bc⟩ := inp
  rcases buildRetry_inpFinal_cases env tp pd bc with h | ⟨cfg, sys, hbc, hsys, h⟩
  · refine ⟨by rw [h], by rw [h], fun ty hty => h, fun cfg hcfg => ?_⟩
    refine ⟨cfg, ?_, rfl, fun _ => rfl, fun _ => rfl⟩
    rw [h]
    exact hcfg.symm ▸ rfl
  · subst hbc
    refine ⟨by rw [h], by rw [h], by intro ty hty; simp at hty, ?_⟩
    intro cfg' hcfg'
    have hc : cfg' = cfg := by
      have := hcfg'.symm
      injection this
    subst hc
    refine ⟨{ cfg' with System := sys, Name := effectiveName tp cfg'.Name },
      by rw [h], rfl, ?_, ?_⟩
    · intro hpos
      have hne : cfg'.System.length ≠ 0 := by omega
      simp [resolveSystem, hne] at hsys
      simp [hsys]
    · intro hpos
      simp [effectiveName]
      omega

/-- C9, witness: the amended claim at the concrete successful run — the plan
name survives and the returned configuration is still of the expected
type with its Enabled flag preserved. -/
theorem c9_request_mutation_witness :
    (buildRetry envGood inpStd).inpFinal.TestPlan = "mytest" ∧
    ∃ cfg', (buildRetry envGood inpStd).inpFinal.BuildConfig =
        ConfigValue.nixCfg cfg' ∧ cfg'.Enabled = true := by
  have h := c9_request_mutation_amended envGood inpStd
  refine ⟨h.1, ?_⟩
  obtain ⟨cfg', hbc, hen, _, _⟩ := h.2.2.2 ⟨true, "", ""⟩ rfl
  exact ⟨cfg', hbc, hen⟩

/-- C10: the artifact file handle is NOT released on every exit path in the
baseline retry variant — no run of it ever emits a handle-release event,
although a successful run opens a handle; the hardened variant, by contrast,
releases its handle via `defer`.  (The first conjunct is the general
no-release fact; the remaining conjuncts evaluate a concrete successful run
of each variant.) -/
theorem c10_handle_release :
    (∀ (env : Env) (inp : BuildInput),
      (buildRetry env inp).events.filter isClose = []) ∧
    (buildRetry envGood inpStd).error = none ∧
    (buildRetry envGood inpStd).events.filter isOpen = [Event.openFile 0] ∧
    (buildHardened envGood inpStd).events.filter isOpen = [Event.openFile 0] ∧
    (buildHardened envGood inpStd).events.filter isClose = [Event.closeFile 0] := by
  refine ⟨buildRetry_never_closes, ?_, ?_, ?_, ?_⟩ <;> decide

end DockerNix
